import Mathlib

/-!
Shallow embedding of the KhmerCoders bot GitHub-notification subsystem:
the deduplication gate and its content hashes, the rule matchers and the
label router, the reviewer-staleness escalator, the rate limiter, the
summary truncation helpers, and the webhook handler's control flow.
Each definition is translated from the TypeScript source; database rows
are modelled as lists of records and each database-touching function as
an explicit state-passing step.
-/

namespace KhmercodersBot

/-! ### Sent-notification ledger (table `github_notifications`)

A row of `github_notifications` as written by `sendGitHubNotification`
(src/utils/notification-helpers.ts), `sendLabelBasedNotification`
(src/notifications/labelBasedRouting.ts) and `sendReviewerPing`
(reviewerPingSystem).  `github_id` is a TEXT column, so the numeric
ids bound by the callers are modelled after conversion to strings. -/
structure SentRecord where
  eventType : String
  githubId : String
  notificationType : String
  chatId : String
  sentAt : String
  dataHash : String
  deriving DecidableEq

/-- The duplicate lookup `SELECT id FROM github_notifications WHERE
event_type = ? AND github_id = ? AND notification_type = ? AND data_hash = ?`
matches a row exactly on the four-column key. -/
def matchesKey (r : SentRecord) (et gid tpl hash : String) : Bool :=
  r.eventType == et && r.githubId == gid && r.notificationType == tpl && r.dataHash == hash

/-- The dedup gate's check: send is permitted iff no ledger row matches the
key; an existing row makes the caller `continue` (skip the channel). -/
def shouldSendCheck (ledger : List SentRecord) (et gid tpl hash : String) : Bool :=
  !(ledger.any (fun r => matchesKey r et gid tpl hash))

/-- The `INSERT INTO github_notifications ... VALUES (?, ?, ?, ?, ?, ?)`
performed after a successful Telegram send: appends one row. -/
def recordSent (ledger : List SentRecord) (et gid tpl chat sentAt hash : String) :
    List SentRecord :=
  ledger ++ [⟨et, gid, tpl, chat, sentAt, hash⟩]

/-- One iteration of the per-channel loop shared by `sendGitHubNotification`
and `sendLabelBasedNotification`: check for a duplicate, send, and on a
successful send (`response.ok`) record the notification under the same key. -/
def sendChannelStep (ledger : List SentRecord) (et gid tpl chat sentAt hash : String)
    (sendOk : Bool) : List SentRecord :=
  if shouldSendCheck ledger et gid tpl hash then
    if sendOk then recordSent ledger et gid tpl chat sentAt hash else ledger
  else ledger

/-! ### Content hashes

Both hash functions SHA-256 the input string and keep the first 16 hex
characters; the digest step is deterministic, so two equal inputs always
produce equal stored hashes.  The structure of the *input* is what the
claims are about, and is modelled exactly. -/

/-- Hash input of `generateNotificationHash` in
src/utils/notification-helpers.ts: `eventType-entityId-message` where
`entityId` is the rendering of `data.id || data.number`. -/
def notificationHashInput (eventType entityId message : String) : String :=
  eventType ++ "-" ++ entityId ++ "-" ++ message

/-- Hash input of `generateNotificationHash` in
src/notifications/labelBasedRouting.ts:
`eventType-id-template-messageLength` — only the *length* of the rendered
message enters the digest. -/
def labelHashInput (eventType id template message : String) : String :=
  eventType ++ "-" ++ id ++ "-" ++ template ++ "-" ++ toString message.length

/-! ### Reviewer-staleness escalator (reviewerPingSystem) -/

/-- Urgency levels of a reviewer ping. -/
inductive UrgencyLevel where
  | normal
  | urgent
  | critical
  deriving DecidableEq

/-- `shouldSendReviewerPing`: the ping intervals `[36, 72, 120, 168]`, a ping
fires when the waiting time lies in some `[interval, interval + 24)`. -/
def pingIntervals : List Int := [36, 72, 120, 168]

/-- `shouldSendReviewerPing(waitingTimeHours)`: true iff some interval
satisfies `waitingTimeHours >= interval && waitingTimeHours < interval + 24`. -/
def shouldSendReviewerPing (waitingTimeHours : Int) : Bool :=
  pingIntervals.any (fun interval =>
    interval ≤ waitingTimeHours && waitingTimeHours < interval + 24)

/-- `determineUrgencyLevel(waitingTimeHours, previousPings)`. -/
def determineUrgencyLevel (waitingTimeHours : Int) (previousPings : Nat) : UrgencyLevel :=
  if 168 ≤ waitingTimeHours ∨ 3 ≤ previousPings then .critical
  else if 120 ≤ waitingTimeHours ∨ 2 ≤ previousPings then .urgent
  else .normal

/-! ### Reviewer ping sending and recording (reviewerPingSystem) -/

/-- The `pr` sub-object of `ReviewerPingData`. -/
structure PRInfo where
  number : Nat
  title : String
  author : String
  url : String
  repository : String
  createdAt : String
  updatedAt : String
  deriving DecidableEq

/-- One reviewer entry of `ReviewerPingData`. -/
structure ReviewerEntry where
  githubUsername : String
  telegramUsername : Option String
  requestedAt : String
  deriving DecidableEq

/-- `ReviewerPingData` as assembled by `findStalePRs` / `processReviewRequest`. -/
structure ReviewerPingData where
  pr : PRInfo
  reviewers : List ReviewerEntry
  waitingTime : Int
  urgencyLevel : UrgencyLevel
  previousPings : Nat
  deriving DecidableEq

/-- `generateReviewerPingMessage`: the escalation-ping text; the waiting time
(in hours) is rendered into the message, so pings at different waiting times
have different content.  The non-ASCII characters reproduce the source
literals byte for byte. -/
def generateReviewerPingMessage (data : ReviewerPingData) : String :=
  let emoji := match data.urgencyLevel with
    | .urgent => "‚ö†Ô∏è"
    | .critical => "üö®"
    | .normal => "üëÄ"
  let urgencyText := match data.urgencyLevel with
    | .urgent => " <b>(URGENT)</b>"
    | .critical => " <b>(CRITICAL)</b>"
    | .normal => ""
  let reviewerMentions := String.intercalate ", "
    (data.reviewers.map (fun r =>
      match r.telegramUsername with
      | some t => if t = "" then "@" ++ r.githubUsername else t
      | none => "@" ++ r.githubUsername))
  emoji ++ " <b>Review Needed" ++ urgencyText ++ ":</b> PR #" ++ toString data.pr.number ++ "\n"
    ++ "üóÇÔ∏è <b>Title:</b> " ++ data.pr.title ++ "\n"
    ++ "üë§ <b>Author:</b> @" ++ data.pr.author ++ "\n"
    ++ "‚è∞ <b>Waiting for:</b> " ++ toString data.waitingTime ++ " hours\n"
    ++ "üëÄ <b>Reviewers:</b> " ++ reviewerMentions ++ "\n"
    ++ (if 0 < data.previousPings
        then "üì¢ <b>Previous pings:</b> " ++ toString data.previousPings ++ "\n" else "")
    ++ "\nüìé <b>Let\x27s unblock it!</b>\n"
    ++ "üîó <a href=\"" ++ data.pr.url ++ "\">Review Now</a>"

/-- The `data_hash` value bound by `sendReviewerPing`:
the string ping_(pr number)_(Date.now()) — a timestamp nonce; the rendered
message does not enter it. -/
def reviewerPingDataHash (prNumber nowMs : Nat) : String :=
  "ping_" ++ toString prNumber ++ "_" ++ toString nowMs

/-- Ledger effect of `sendReviewerPing`: after sending to the channels (no
duplicate lookup is performed first), one row is inserted unconditionally with
the PR number as `github_id`, type `reviewer_ping`, and the timestamp-nonce
hash. -/
def sendReviewerPingStep (ledger : List SentRecord) (data : ReviewerPingData)
    (nowIso : String) (nowMs : Nat) (kcDevChatId : String) : List SentRecord :=
  ledger ++ [⟨"pull_request.review_ping", toString data.pr.number, "reviewer_ping",
    kcDevChatId, nowIso, reviewerPingDataHash data.pr.number nowMs⟩]

/-- Ledger effect of `processReviewRequest` (the immediate review-request
notification): the function updates `github_pr_tracking` via
`updatePRWithReviewer` and sends the message via `sendToChannels`, but never
reads or writes `github_notifications` — the sent-notification ledger is left
unchanged. -/
def processReviewRequestLedgerEffect (ledger : List SentRecord) : List SentRecord :=
  ledger

/-- Concrete escalation-ping data waiting 36 hours. -/
def exPingData36 : ReviewerPingData :=
  { pr := { number := 42, title := "Add feature", author := "alice",
            url := "https://github.com/kc/repo/pull/42", repository := "kc/repo",
            createdAt := "2024-01-01", updatedAt := "2024-01-02" }
    reviewers := [{ githubUsername := "bob", telegramUsername := none,
                    requestedAt := "2024-01-02" }]
    waitingTime := 36
    urgencyLevel := .normal
    previousPings := 0 }

/-- The same ping data one hour later (waiting 37 hours): the rendered message
differs. -/
def exPingData37 : ReviewerPingData :=
  { exPingData36 with waitingTime := 37 }

/-- JavaScript `toLowerCase()` modelled on the character list (`Char.toLower`
agrees with it on the ASCII label names involved). -/
def toLowerCase (s : String) : String :=
  String.mk (s.data.map Char.toLower)

/-! ### Label-based routing (src/notifications/labelBasedRouting.ts) -/

/-- Rule priorities of `LabelRoutingRule`. -/
inductive RoutingPriority where
  | low
  | normal
  | high
  | critical
  deriving DecidableEq

/-- `priorityOrder = { critical: 4, high: 3, normal: 2, low: 1 }`. -/
def priorityOrder : RoutingPriority → Nat
  | .critical => 4
  | .high => 3
  | .normal => 2
  | .low => 1

/-- The optional `conditions` object of a `LabelRoutingRule`. -/
structure RoutingConditions where
  eventTypes : Option (List String)
  authors : Option (List String)
  excludeLabels : Option (List String)
  deriving DecidableEq

/-- A `LabelRoutingRule` of the label router. -/
structure LabelRoutingRule where
  labels : List String
  targetChannels : List String
  template : String
  priority : RoutingPriority
  conditions : Option RoutingConditions
  deriving DecidableEq

/-- The loop body of `findMatchingRoutingRules`: a rule is kept iff some rule
label, lowercased, occurs in the event's label list, the optional event-type
list contains the event type, the optional author list contains the author,
and no exclude label, lowercased, occurs in the event's label list.  (The
event labels themselves are lowercased earlier, in
`extractLabelRoutingData`.) -/
def routingRuleMatches (rule : LabelRoutingRule) (dataLabels : List String)
    (author eventType : String) : Bool :=
  rule.labels.any (fun l => dataLabels.contains (toLowerCase l))
  && (match rule.conditions with
      | none => true
      | some c =>
        (match c.eventTypes with
         | some ets => ets.contains eventType
         | none => true)
        && (match c.authors with
            | some as => as.contains author
            | none => true)
        && (match c.excludeLabels with
            | some xs => !(xs.any (fun x => dataLabels.contains (toLowerCase x)))
            | none => true))

/-- Stable insertion used to model the final
`matchingRules.sort((a, b) => priorityOrder[b.priority] - priorityOrder[a.priority])`
(JavaScript `Array.prototype.sort` is stable): walk past strictly
higher-priority rules and insert before the first rule of equal or lower
priority, so rules of equal priority keep their declaration order. -/
def insertByPriority (x : LabelRoutingRule) : List LabelRoutingRule → List LabelRoutingRule
  | [] => [x]
  | y :: ys =>
    if priorityOrder x.priority < priorityOrder y.priority
    then y :: insertByPriority x ys
    else x :: y :: ys

/-- Stable sort by descending priority (insertion sort). -/
def sortByPriorityDesc : List LabelRoutingRule → List LabelRoutingRule
  | [] => []
  | x :: xs => insertByPriority x (sortByPriorityDesc xs)

/-- `findMatchingRoutingRules` over an explicit rule table: filter the rules
in declaration order, then sort by descending priority. -/
def findMatchingRoutingRulesOn (rules : List LabelRoutingRule)
    (dataLabels : List String) (author eventType : String) : List LabelRoutingRule :=
  sortByPriorityDesc
    (rules.filter (fun r => routingRuleMatches r dataLabels author eventType))

/-- The security-alert routing rule of `labelRoutingRules`. -/
def securityRoutingRule : LabelRoutingRule :=
  { labels := ["security", "vulnerability", "critical", "cve"]
    targetChannels := ["kc_dev"]
    template := "security_alert"
    priority := .critical
    conditions := some { eventTypes := some ["pull_request.opened", "issues.opened",
                           "pull_request.review_requested"]
                         authors := none, excludeLabels := none } }

/-- The design/UX routing rule of `labelRoutingRules`. -/
def designRoutingRule : LabelRoutingRule :=
  { labels := ["ux", "design", "ui", "frontend", "styling"]
    targetChannels := ["kc_dev"]
    template := "design_alert"
    priority := .normal
    conditions := some { eventTypes := some ["pull_request.opened",
                           "pull_request.review_requested"]
                         authors := none, excludeLabels := none } }

/-- The bug-fix routing rule of `labelRoutingRules`. -/
def bugRoutingRule : LabelRoutingRule :=
  { labels := ["bug", "hotfix", "urgent", "production"]
    targetChannels := ["kc_dev"]
    template := "bug_alert"
    priority := .high
    conditions := some { eventTypes := some ["pull_request.opened", "issues.opened"]
                         authors := none, excludeLabels := none } }

/-- The performance routing rule of `labelRoutingRules`. -/
def performanceRoutingRule : LabelRoutingRule :=
  { labels := ["performance", "optimization", "slow"]
    targetChannels := ["kc_dev"]
    template := "performance_alert"
    priority := .normal
    conditions := some { eventTypes := some ["pull_request.opened", "issues.opened"]
                         authors := none, excludeLabels := none } }

/-- The documentation routing rule of `labelRoutingRules`. -/
def docsRoutingRule : LabelRoutingRule :=
  { labels := ["documentation", "docs", "readme"]
    targetChannels := ["kc_dev"]
    template := "docs_alert"
    priority := .low
    conditions := some { eventTypes := some ["pull_request.opened"]
                         authors := none, excludeLabels := none } }

/-- The infrastructure routing rule of `labelRoutingRules`. -/
def infrastructureRoutingRule : LabelRoutingRule :=
  { labels := ["dependencies", "infrastructure", "ci", "devops"]
    targetChannels := ["kc_dev"]
    template := "infrastructure_alert"
    priority := .normal
    conditions := some { eventTypes := some ["pull_request.opened", "issues.opened"]
                         authors := none, excludeLabels := none } }

/-- The static `labelRoutingRules` table, in declaration order. -/
def labelRoutingRules : List LabelRoutingRule :=
  [securityRoutingRule, designRoutingRule, bugRoutingRule, performanceRoutingRule,
   docsRoutingRule, infrastructureRoutingRule]

/-- `findMatchingRoutingRules` against the static table. -/
def findMatchingRoutingRules (dataLabels : List String) (author eventType : String) :
    List LabelRoutingRule :=
  findMatchingRoutingRulesOn labelRoutingRules dataLabels author eventType

/-- Specification-side characterization of a stable descending priority sort:
the critical rules in declaration order, then the high ones, then the normal
ones, then the low ones. -/
def priorityBuckets (l : List LabelRoutingRule) : List LabelRoutingRule :=
  (l.filter (fun r => r.priority == .critical))
    ++ (l.filter (fun r => r.priority == .high))
    ++ (l.filter (fun r => r.priority == .normal))
    ++ (l.filter (fun r => r.priority == .low))

lemma priorityOrder_le_four (p : RoutingPriority) : priorityOrder p ≤ 4 := by
  cases p <;> simp [priorityOrder]

lemma insertByPriority_append (x : LabelRoutingRule) (P Q : List LabelRoutingRule)
    (hP : ∀ y ∈ P, priorityOrder x.priority < priorityOrder y.priority)
    (hQ : ∀ y ∈ Q, priorityOrder y.priority ≤ priorityOrder x.priority) :
    insertByPriority x (P ++ Q) = P ++ x :: Q := by
  induction P with
  | nil =>
    cases Q with
    | nil => rfl
    | cons y ys =>
      have hy := hQ y (by simp)
      simp only [List.nil_append, insertByPriority]
      rw [if_neg (by omega)]
  | cons y ys ih =>
    have hy := hP y (by simp)
    simp only [List.cons_append, insertByPriority]
    rw [if_pos hy]
    simp only [List.append_eq]
    rw [ih (fun z hz => hP z (by simp [hz]))]

lemma sortByPriorityDesc_eq_buckets (l : List LabelRoutingRule) :
    sortByPriorityDesc l = priorityBuckets l := by
  induction l with
  | nil => rfl
  | cons x xs ih =>
    have hmem : ∀ (q : RoutingPriority) (y : LabelRoutingRule),
        y ∈ xs.filter (fun r => r.priority == q) → y.priority = q := by
      intro q y hy
      have := (List.mem_filter.mp hy).2
      simpa using this
    have hrank : ∀ y ∈ priorityBuckets xs, priorityOrder y.priority ≤ 4 := by
      intro y _
      cases y.priority <;> simp [priorityOrder]
    simp only [sortByPriorityDesc, ih]
    cases hx : x.priority with
    | critical =>
      have h := insertByPriority_append x [] (priorityBuckets xs) (by simp)
        (by intro y hy; rw [hx]; have h4 := hrank y hy; simpa [priorityOrder] using h4)
      simp only [List.nil_append] at h
      rw [h]
      simp [priorityBuckets, List.filter_cons, hx]
    | high =>
      have h := insertByPriority_append x
        (xs.filter (fun r => r.priority == .critical))
        ((xs.filter (fun r => r.priority == .high))
          ++ (xs.filter (fun r => r.priority == .normal))
          ++ (xs.filter (fun r => r.priority == .low)))
        (by
          intro y hy
          rw [hx, hmem .critical y hy]
          simp [priorityOrder])
        (by
          intro y hy
          rw [hx]
          simp only [List.mem_append] at hy
          rcases hy with (hy | hy) | hy
          · rw [hmem .high y hy]
          · rw [hmem .normal y hy]; simp [priorityOrder]
          · rw [hmem .low y hy]; simp [priorityOrder])
      simp only [priorityBuckets, List.append_assoc] at h ⊢
      rw [h]
      simp [List.filter_cons, hx, List.append_assoc]
    | normal =>
      have h := insertByPriority_append x
        ((xs.filter (fun r => r.priority == .critical))
          ++ (xs.filter (fun r => r.priority == .high)))
        ((xs.filter (fun r => r.priority == .normal))
          ++ (xs.filter (fun r => r.priority == .low)))
        (by
          intro y hy
          rw [hx]
          simp only [List.mem_append] at hy
          rcases hy with hy | hy
          · rw [hmem .critical y hy]; simp [priorityOrder]
          · rw [hmem .high y hy]; simp [priorityOrder])
        (by
          intro y hy
          rw [hx]
          simp only [List.mem_append] at hy
          rcases hy with hy | hy
          · rw [hmem .normal y hy]
          · rw [hmem .low y hy]; simp [priorityOrder])
      simp only [priorityBuckets, List.append_assoc] at h ⊢
      rw [h]
      simp [List.filter_cons, hx, List.append_assoc]
    | low =>
      have h := insertByPriority_append x
        ((xs.filter (fun r => r.priority == .critical))
          ++ (xs.filter (fun r => r.priority == .high))
          ++ (xs.filter (fun r => r.priority == .normal)))
        (xs.filter (fun r => r.priority == .low))
        (by
          intro y hy
          rw [hx]
          simp only [List.mem_append] at hy
          rcases hy with (hy | hy) | hy
          · rw [hmem .critical y hy]; simp [priorityOrder]
          · rw [hmem .high y hy]; simp [priorityOrder]
          · rw [hmem .normal y hy]; simp [priorityOrder])
        (by
          intro y hy
          rw [hx, hmem .low y hy])
      simp only [priorityBuckets, List.append_assoc] at h ⊢
      rw [h]
      simp [List.filter_cons, hx, List.append_assoc]

/-! ### Theorems: dedup hash content sensitivity (C1) -/

/-- Claim C1 (counterexample): the label-based routing dispatch path hashes
`eventType-id-template-messageLength`, so the two distinct equal-length
rendered messages "ab" and "ba" produce the same dedup hash input (hence the
same deterministic digest), and with the first one recorded in the ledger the
second is suppressed — contradicting the claim that two different rendered
messages always produce different dedup keys and both are permitted to send,
"including label-based routing". -/
theorem labelRouting_equal_length_hash_collision :
    ("ab" : String) ≠ "ba"
    ∧ labelHashInput "pull_request.opened" "1" "security_alert" "ab"
        = labelHashInput "pull_request.opened" "1" "security_alert" "ba"
    ∧ shouldSendCheck
        [⟨"pull_request.opened", "1", "security_alert", "chat", "t0",
          labelHashInput "pull_request.opened" "1" "security_alert" "ab"⟩]
        "pull_request.opened" "1" "security_alert"
        (labelHashInput "pull_request.opened" "1" "security_alert" "ba") = false := by
  refine ⟨by decide, by decide, by decide⟩

/-- Claim C1 (amended): in the generic notification path the hash input is
`eventType-entityId-renderedMessage`, so for a fixed event type and entity id
two different rendered messages give different hash inputs and a recorded
notification never suppresses one with a different hash; in the label-based
routing path the hash input depends on the message only through its length,
so any two equal-length rendered messages collide there. -/
theorem dedupHash_content_sensitivity :
    (∀ et id m₁ m₂ : String,
      notificationHashInput et id m₁ = notificationHashInput et id m₂ → m₁ = m₂)
    ∧ (∀ et id tpl m₁ m₂ : String, m₁.length = m₂.length →
        labelHashInput et id tpl m₁ = labelHashInput et id tpl m₂)
    ∧ (∀ (L : List SentRecord) (et gid tpl h₁ h₂ : String), h₁ ≠ h₂ →
        (∀ r ∈ L, r.dataHash = h₁) → shouldSendCheck L et gid tpl h₂ = true) := by
  refine ⟨?_, ?_, ?_⟩
  · intro et id m₁ m₂ h
    have hd : (notificationHashInput et id m₁).data = (notificationHashInput et id m₂).data := by
      rw [h]
    simp [notificationHashInput, String.data_append] at hd
    exact String.ext hd
  · intro et id tpl m₁ m₂ h
    simp [labelHashInput, h]
  · intro L et gid tpl h₁ h₂ hne hall
    simp only [shouldSendCheck, Bool.not_eq_true', List.any_eq_false]
    intro r hr hcontra
    simp only [matchesKey, Bool.and_eq_true, beq_iff_eq] at hcontra
    have hd2 : r.dataHash = h₂ := by tauto
    exact hne ((hall r hr).symm.trans hd2)

/-- Witness for `dedupHash_content_sensitivity` at concrete inputs. -/
theorem dedupHash_content_sensitivity_witness :
    ("msg" : String) = "msg"
    ∧ labelHashInput "e" "1" "t" "ab" = labelHashInput "e" "1" "t" "cd"
    ∧ shouldSendCheck [⟨"e", "1", "t", "c", "s", "h1"⟩] "e" "1" "t" "h2" = true :=
  ⟨dedupHash_content_sensitivity.1 "e" "1" "msg" "msg" rfl,
   dedupHash_content_sensitivity.2.1 "e" "1" "t" "ab" "cd" (by decide),
   dedupHash_content_sensitivity.2.2 [⟨"e", "1", "t", "c", "s", "h1"⟩]
     "e" "1" "t" "h1" "h2" (by decide) (by decide)⟩

/-! ### Theorems: dedup gate idempotency (C2) -/

/-- Claim C2: the dedup check succeeds exactly when no ledger row matches the
key (eventType, githubId, template, contentHash); after a successful send the
same key is recorded, and a second check with identical inputs then fails, so
the same content is delivered at most once per channel. -/
theorem dedupGate_check_record_idempotent :
    ∀ (L : List SentRecord) (et gid tpl hash chat t : String),
      (shouldSendCheck L et gid tpl hash = true
        ↔ ∀ r ∈ L, matchesKey r et gid tpl hash = false)
      ∧ (shouldSendCheck L et gid tpl hash = true →
          sendChannelStep L et gid tpl chat t hash true = L ++ [⟨et, gid, tpl, chat, t, hash⟩]
          ∧ shouldSendCheck (sendChannelStep L et gid tpl chat t hash true)
              et gid tpl hash = false) := by
  intro L et gid tpl hash chat t
  constructor
  · simp [shouldSendCheck, List.any_eq_false]
  · intro hcheck
    have hstep : sendChannelStep L et gid tpl chat t hash true
        = L ++ [⟨et, gid, tpl, chat, t, hash⟩] := by
      simp [sendChannelStep, hcheck, recordSent]
    refine ⟨hstep, ?_⟩
    rw [hstep]
    simp [shouldSendCheck, matchesKey]

/-- Witness for `dedupGate_check_record_idempotent`: on an empty ledger the
first check passes, the record is written, and the second identical check
fails. -/
theorem dedupGate_check_record_idempotent_witness :
    shouldSendCheck [] "pull_request.opened" "42" "smart_alert" "h" = true
    ∧ sendChannelStep [] "pull_request.opened" "42" "smart_alert" "chat" "t0" "h" true
        = [⟨"pull_request.opened", "42", "smart_alert", "chat", "t0", "h"⟩]
    ∧ shouldSendCheck
        (sendChannelStep [] "pull_request.opened" "42" "smart_alert" "chat" "t0" "h" true)
        "pull_request.opened" "42" "smart_alert" "h" = false := by
  have h := (dedupGate_check_record_idempotent []
    "pull_request.opened" "42" "smart_alert" "h" "chat" "t0").2 (by decide)
  exact ⟨by decide, h.1, h.2⟩

/-! ### Theorems: reviewer-staleness escalator (C5) -/

/-- Claim C5 (counterexample): at an elapsed waiting time of 200 hours (and
likewise 119 hours) the code fires no ping at all — 200 is outside
[168, 192) and 119 is in the gap [96, 120) — contradicting the claim's
examples that h=200 fires a critical ping and h=119 with two prior pings
fires an urgent ping. -/
theorem reviewerPing_gap_hours_do_not_fire :
    shouldSendReviewerPing 200 = false ∧ shouldSendReviewerPing 119 = false := by
  refine ⟨by decide, by decide⟩

/-- Claim C5 (amended): a ping fires iff the elapsed whole hours lie in
[36,60) ∪ [72,96) ∪ [120,144) ∪ [168,192); the urgency is critical iff
h ≥ 168 or priorPings ≥ 3, else urgent iff h ≥ 120 or priorPings ≥ 2, else
normal; so h=35 fires nothing, h=36 fires a normal ping, h=90 with 2 prior
pings fires an urgent ping (via the prior-pings branch), h=170 fires a
critical ping, and h=119 and h=200 fire nothing. -/
theorem reviewerPing_threshold_characterization :
    (∀ h : Int, shouldSendReviewerPing h = true
      ↔ (36 ≤ h ∧ h < 60) ∨ (72 ≤ h ∧ h < 96) ∨ (120 ≤ h ∧ h < 144) ∨ (168 ≤ h ∧ h < 192))
    ∧ (∀ (h : Int) (p : Nat),
        (determineUrgencyLevel h p = .critical ↔ 168 ≤ h ∨ 3 ≤ p)
        ∧ (determineUrgencyLevel h p = .urgent
            ↔ ¬(168 ≤ h ∨ 3 ≤ p) ∧ (120 ≤ h ∨ 2 ≤ p)))
    ∧ shouldSendReviewerPing 35 = false
    ∧ (shouldSendReviewerPing 36 = true ∧ determineUrgencyLevel 36 0 = .normal)
    ∧ (shouldSendReviewerPing 90 = true ∧ (90 : Int) < 120
        ∧ determineUrgencyLevel 90 2 = .urgent)
    ∧ (shouldSendReviewerPing 170 = true ∧ determineUrgencyLevel 170 0 = .critical) := by
  refine ⟨?_, ?_, by decide, ⟨by decide, by decide⟩, ⟨by decide, by decide, by decide⟩,
    ⟨by decide, by decide⟩⟩
  · intro h
    simp only [shouldSendReviewerPing, pingIntervals, List.any_cons, List.any_nil,
      Bool.or_eq_true, Bool.and_eq_true, decide_eq_true_eq, Bool.or_false]
    omega
  · intro h p
    constructor
    · simp only [determineUrgencyLevel]
      split
      · simp_all
      · split <;> simp_all
    · simp only [determineUrgencyLevel]
      split
      · simp_all
      · split <;> simp_all

/-! ### Theorems: reviewer ping recording (C6) -/

/-- Claim C6 (counterexample): two escalation pings for PR #42 whose rendered
messages differ (36 vs 37 hours waiting) produce *identical* ledger writes at
the same clock time — the recorded hash is a timestamp nonce, not a content
hash; and the initial review-request notification writes nothing to the
ledger at all, so sending is not delegated to the deduplication gate. -/
theorem reviewerPing_hash_ignores_content :
    generateReviewerPingMessage exPingData36 ≠ generateReviewerPingMessage exPingData37
    ∧ sendReviewerPingStep [] exPingData36 "2024-01-03T12:00:00Z" 1700000000000 "chat"
        = sendReviewerPingStep [] exPingData37 "2024-01-03T12:00:00Z" 1700000000000 "chat"
    ∧ processReviewRequestLedgerEffect
        [⟨"pull_request.review_requested", "42", "review_request", "chat", "t", "h"⟩]
        = [⟨"pull_request.review_requested", "42", "review_request", "chat", "t", "h"⟩] := by
  refine ⟨by decide, by decide, rfl⟩

/-- Claim C6 (amended): the escalator records escalation pings directly in the
ledger — without any prior dedup check — keyed by the PR number as entity id
and a synthesized hash ping_(prNumber)_(timestamp) that is a timestamp
nonce independent of message content; the initial review-request immediate
notification neither consults nor writes the ledger. -/
theorem reviewerPing_recording_uses_timestamp_nonce :
    (∀ (L : List SentRecord) (d : ReviewerPingData) (iso : String) (ms : Nat) (chat : String),
      sendReviewerPingStep L d iso ms chat
        = L ++ [⟨"pull_request.review_ping", toString d.pr.number, "reviewer_ping", chat, iso,
                 reviewerPingDataHash d.pr.number ms⟩])
    ∧ (∀ (L : List SentRecord) (d : ReviewerPingData) (iso : String) (ms : Nat) (chat : String),
        (sendReviewerPingStep L d iso ms chat).length = L.length + 1)
    ∧ (∀ (d₁ d₂ : ReviewerPingData) (ms : Nat), d₁.pr.number = d₂.pr.number →
        reviewerPingDataHash d₁.pr.number ms = reviewerPingDataHash d₂.pr.number ms)
    ∧ (∀ L : List SentRecord, processReviewRequestLedgerEffect L = L) := by
  refine ⟨fun L d iso ms chat => rfl, fun L d iso ms chat => by simp [sendReviewerPingStep],
    fun d₁ d₂ ms h => by rw [h], fun L => rfl⟩

/-- Witness for `reviewerPing_recording_uses_timestamp_nonce`: the two
concrete pings with different content record the same hash. -/
theorem reviewerPing_recording_uses_timestamp_nonce_witness :
    reviewerPingDataHash exPingData36.pr.number 1700000000000
      = reviewerPingDataHash exPingData37.pr.number 1700000000000 :=
  reviewerPing_recording_uses_timestamp_nonce.2.2.1 exPingData36 exPingData37
    1700000000000 rfl

/-! ### Theorems: label router priority ordering (C4) -/

/-- Routing rule "R1" of priority normal (P3 example). -/
def exampleRuleNormal : LabelRoutingRule :=
  { labels := ["x"], targetChannels := ["kc_dev"], template := "r1",
    priority := .normal, conditions := none }

/-- Routing rule "R2" of priority critical (P3 example). -/
def exampleRuleCritical : LabelRoutingRule :=
  { labels := ["x"], targetChannels := ["kc_dev"], template := "r2",
    priority := .critical, conditions := none }

/-- Routing rule "R3" of priority high (P3 example). -/
def exampleRuleHigh : LabelRoutingRule :=
  { labels := ["x"], targetChannels := ["kc_dev"], template := "r3",
    priority := .high, conditions := none }

/-- Claim C4: the label router returns the matching rules sorted descending by
the fixed rank critical=4 > high=3 > normal=2 > low=1 with ties in declaration
order — stated as: the result is exactly the matching critical rules in
declaration order, then the high ones, the normal ones, and the low ones.  In
particular matching rules declared [R1 normal, R2 critical, R3 high] come back
as [R2, R3, R1], and on the static table an event carrying the labels
security, bug and design yields [security(critical), bug(high),
design(normal)] even though bug is declared after design. -/
theorem labelRouter_priority_ordering :
    (∀ (rules : List LabelRoutingRule) (dataLabels : List String) (author eventType : String),
      findMatchingRoutingRulesOn rules dataLabels author eventType
        = priorityBuckets
            (rules.filter (fun r => routingRuleMatches r dataLabels author eventType)))
    ∧ findMatchingRoutingRulesOn [exampleRuleNormal, exampleRuleCritical, exampleRuleHigh]
        ["x"] "mona" "pull_request.opened"
        = [exampleRuleCritical, exampleRuleHigh, exampleRuleNormal]
    ∧ findMatchingRoutingRules ["security", "bug", "design"] "mona" "pull_request.opened"
        = [securityRoutingRule, bugRoutingRule, designRoutingRule] := by
  refine ⟨fun rules dataLabels author eventType => sortByPriorityDesc_eq_buckets _,
    by decide, by decide⟩

/-! ### Generic rule matcher (src/utils/notification-helpers.ts) -/

/-- The optional `conditions` object of a `NotificationRule`; `branches` is
declared but never checked by `findMatchingRules`. -/
structure RuleConditions where
  labels : Option (List String)
  authors : Option (List String)
  branches : Option (List String)
  deriving DecidableEq

/-- A `NotificationRule` of `notificationConfig.rules`. -/
structure NotificationRule where
  eventType : String
  conditions : Option RuleConditions
  channels : List String
  template : String
  enabled : Bool
  deriving DecidableEq

/-- The filter body of `findMatchingRules`: exact event-type match, then, when
a non-empty label condition exists, `labels.some(label =>
data.labels?.includes(label.toLowerCase()))` — only the *rule's* label is
lowercased, the event's labels are compared verbatim — and, when a non-empty
author condition exists, exact author membership.  `enabled` is *not* checked
here (the caller `processGitHubNotification` skips disabled rules). -/
def notificationRuleMatches (rule : NotificationRule) (eventType : String)
    (dataLabels : List String) (author : String) : Bool :=
  rule.eventType == eventType
  && (match rule.conditions with
      | none => true
      | some c =>
        (match c.labels with
         | some ls =>
           if 0 < ls.length then ls.any (fun l => dataLabels.contains (toLowerCase l)) else true
         | none => true)
        && (match c.authors with
            | some as => if 0 < as.length then as.contains author else true
            | none => true))

/-- `findMatchingRules` over an explicit rule table. -/
def findMatchingRulesOn (rules : List NotificationRule) (eventType : String)
    (dataLabels : List String) (author : String) : List NotificationRule :=
  rules.filter (fun r => notificationRuleMatches r eventType dataLabels author)

/-- The design-alert rule of `notificationConfig.rules` — note its label
condition contains the upper-case label "UX". -/
def configDesignAlertRule : NotificationRule :=
  { eventType := "pull_request.opened"
    conditions := some { labels := some ["UX", "design", "ui", "frontend"]
                         authors := none, branches := none }
    channels := ["kc_dev"], template := "design_alert", enabled := true }

/-- The static `notificationConfig.rules` table (src/config/notifications.ts),
in declaration order. -/
def notificationConfigRules : List NotificationRule :=
  [ { eventType := "pull_request.opened", conditions := none, channels := ["kc_dev"],
      template := "smart_alert", enabled := true },
    { eventType := "pull_request.closed", conditions := none, channels := ["kc_dev"],
      template := "smart_alert", enabled := true },
    { eventType := "issues.opened", conditions := none, channels := ["kc_dev"],
      template := "smart_alert", enabled := true },
    { eventType := "issues.closed", conditions := none, channels := ["kc_dev"],
      template := "smart_alert", enabled := true },
    { eventType := "pull_request.opened"
      conditions := some { labels := some ["security", "vulnerability", "critical"]
                           authors := none, branches := none }
      channels := ["kc_dev"], template := "security_alert", enabled := true },
    { eventType := "issues.opened"
      conditions := some { labels := some ["security", "vulnerability", "critical"]
                           authors := none, branches := none }
      channels := ["kc_dev"], template := "security_alert", enabled := true },
    configDesignAlertRule,
    { eventType := "pull_request.review_requested", conditions := none,
      channels := ["kc_dev"], template := "review_request", enabled := true },
    { eventType := "issue_comment.created", conditions := none, channels := ["kc_dev"],
      template := "mention_alert", enabled := true },
    { eventType := "activity_pulse.daily", conditions := none, channels := ["kc_dev"],
      template := "activity_pulse", enabled := true },
    { eventType := "pull_request.review_stale", conditions := none, channels := ["kc_dev"],
      template := "reviewer_ping", enabled := true },
    { eventType := "label_routing.*", conditions := none, channels := ["kc_dev"],
      template := "label_based", enabled := true } ]

/-- The rule predicate as the specification words it (claim C3), for
comparison with `notificationRuleMatches`: an enabled rule matches when the
event type is equal and at least one event label *case-insensitively* equals
a rule label (and the author condition holds). -/
def specRuleMatches (rule : NotificationRule) (eventType : String)
    (dataLabels : List String) (author : String) : Bool :=
  rule.enabled && rule.eventType == eventType
  && (match rule.conditions with
      | none => true
      | some c =>
        (match c.labels with
         | some ls =>
           if 0 < ls.length
           then ls.any (fun l => dataLabels.any (fun dl => toLowerCase dl == toLowerCase l))
           else true
         | none => true)
        && (match c.authors with
            | some as => if 0 < as.length then as.contains author else true
            | none => true))

/-! ### Theorems: rule matching case sensitivity (C3) -/

/-- Claim C3 (code bug): for a pull_request.opened event carrying the label
"UX", the claimed case-insensitive predicate matches the config's
design-alert rule (whose label list contains "UX" verbatim), but
`findMatchingRules` rejects it — the code lowercases only the rule's label
("UX" becomes "ux") and compares it verbatim against the unlowercased event
label "UX"; the same event with the lowercase label "ux" does match,
pinpointing the one-sided lowercasing slip. -/
theorem findMatchingRules_case_sensitivity_bug :
    specRuleMatches configDesignAlertRule "pull_request.opened" ["UX"] "mona" = true
    ∧ configDesignAlertRule ∉
        findMatchingRulesOn notificationConfigRules "pull_request.opened" ["UX"] "mona"
    ∧ configDesignAlertRule ∈
        findMatchingRulesOn notificationConfigRules "pull_request.opened" ["ux"] "mona" := by
  refine ⟨by decide, by decide, by decide⟩

/-! ### Rate limiter (`checkGitHubRateLimit`, src/utils/notification-helpers.ts) -/

/-- A row of the `rate_limits` table.  `created_at` is stored as an ISO
timestamp whose lexicographic order coincides with time order, so it is
modelled as the underlying millisecond value. -/
structure RateLimitEntry where
  eventType : String
  identifier : String
  createdAt : Int
  deriving DecidableEq

/-- The body of `checkGitHubRateLimit`'s try block: compute
`windowStart = now - windowMinutes*60*1000`; `DELETE FROM rate_limits WHERE
created_at < windowStart` (note: every stale row, for any pair); count the
remaining rows with `event_type = ? AND identifier = ? AND created_at >= ?`;
reject without recording when the count reaches `maxEvents`; otherwise insert
one row stamped `now` and admit. -/
def checkGitHubRateLimitCore (entries : List RateLimitEntry) (eventType identifier : String)
    (now : Int) (windowMinutes maxEvents : Nat) : Bool × List RateLimitEntry :=
  let windowStart : Int := now - (windowMinutes : Int) * 60 * 1000
  let purged := entries.filter (fun e => !decide (e.createdAt < windowStart))
  let currentCount := (purged.filter (fun e =>
      e.eventType == eventType && e.identifier == identifier
        && decide (windowStart ≤ e.createdAt))).length
  if maxEvents ≤ currentCount then (false, purged)
  else (true, purged ++ [⟨eventType, identifier, now⟩])

/-- `checkGitHubRateLimit` with its catch-all: if any storage operation
throws, the function logs and returns `true` (fail-open; the state is left as
observed at the failure, modelled here as unchanged). -/
def checkGitHubRateLimit (storageFails : Bool) (entries : List RateLimitEntry)
    (eventType identifier : String) (now : Int) (windowMinutes maxEvents : Nat) :
    Bool × List RateLimitEntry :=
  if storageFails then (true, entries)
  else checkGitHubRateLimitCore entries eventType identifier now windowMinutes maxEvents

lemma window_pair_filter (entries : List RateLimitEntry) (et id : String) (ws : Int) :
    (entries.filter (fun e => decide (ws ≤ e.createdAt))).filter
        (fun e => e.eventType == et && e.identifier == id && decide (ws ≤ e.createdAt))
      = entries.filter (fun e => e.eventType == et && e.identifier == id
          && decide (ws ≤ e.createdAt)) := by
  rw [List.filter_filter]
  apply List.filter_congr
  intro e _
  by_cases h : ws ≤ e.createdAt
  · simp [h]
  · simp [h]

lemma purged_pair_filter (entries : List RateLimitEntry) (et id : String) (ws : Int) :
    (entries.filter (fun e => !decide (e.createdAt < ws))).filter
        (fun e => e.eventType == et && e.identifier == id && decide (ws ≤ e.createdAt))
      = entries.filter (fun e => e.eventType == et && e.identifier == id
          && decide (ws ≤ e.createdAt)) := by
  rw [List.filter_filter]
  apply List.filter_congr
  intro e _
  by_cases h : ws ≤ e.createdAt
  · simp [h, not_lt.mpr h]
  · simp [h, lt_of_not_le h]

lemma purged_eq_window (entries : List RateLimitEntry) (ws : Int) :
    entries.filter (fun e => !decide (e.createdAt < ws))
      = entries.filter (fun e => decide (ws ≤ e.createdAt)) := by
  apply List.filter_congr
  intro e _
  by_cases h : ws ≤ e.createdAt
  · simp [h, not_lt.mpr h]
  · simp [h, lt_of_not_le h]

/-! ### Theorems: rate limiter sliding window (C7) -/

/-- Claim C7: `admit` purges every ledger entry older than `now` minus the
window (in particular those of the queried pair), admits exactly when the
pair's in-window count is below `maxEvents`, records one entry stamped `now`
on admit and nothing on reject, and fails open (returns `true`) when storage
throws; concretely, with a 5-minute window and `maxEvents = 3`, three calls
within the window are admitted, a fourth is rejected without recording, and a
call after the window has slid past the early entries is admitted again. -/
theorem rateLimiter_sliding_window :
    (∀ (entries : List RateLimitEntry) (et id : String) (now : Int) (wm me : Nat),
      ((checkGitHubRateLimit false entries et id now wm me).1 = true
        ↔ (entries.filter (fun e => e.eventType == et && e.identifier == id
            && decide (now - (wm : Int) * 60 * 1000 ≤ e.createdAt))).length < me)
      ∧ ((entries.filter (fun e => e.eventType == et && e.identifier == id
            && decide (now - (wm : Int) * 60 * 1000 ≤ e.createdAt))).length < me →
          (checkGitHubRateLimit false entries et id now wm me).2
            = entries.filter (fun e => decide (now - (wm : Int) * 60 * 1000 ≤ e.createdAt))
                ++ [⟨et, id, now⟩])
      ∧ (me ≤ (entries.filter (fun e => e.eventType == et && e.identifier == id
            && decide (now - (wm : Int) * 60 * 1000 ≤ e.createdAt))).length →
          (checkGitHubRateLimit false entries et id now wm me).2
            = entries.filter (fun e => decide (now - (wm : Int) * 60 * 1000 ≤ e.createdAt)))
      ∧ (∀ e ∈ (checkGitHubRateLimit false entries et id now wm me).2,
          now - (wm : Int) * 60 * 1000 ≤ e.createdAt)
      ∧ checkGitHubRateLimit true entries et id now wm me = (true, entries))
    ∧ checkGitHubRateLimit false [] "push" "kc/repo" 0 5 3
        = (true, [⟨"push", "kc/repo", 0⟩])
    ∧ checkGitHubRateLimit false [⟨"push", "kc/repo", 0⟩] "push" "kc/repo" 60000 5 3
        = (true, [⟨"push", "kc/repo", 0⟩, ⟨"push", "kc/repo", 60000⟩])
    ∧ checkGitHubRateLimit false
        [⟨"push", "kc/repo", 0⟩, ⟨"push", "kc/repo", 60000⟩] "push" "kc/repo" 120000 5 3
        = (true, [⟨"push", "kc/repo", 0⟩, ⟨"push", "kc/repo", 60000⟩,
                  ⟨"push", "kc/repo", 120000⟩])
    ∧ checkGitHubRateLimit false
        [⟨"push", "kc/repo", 0⟩, ⟨"push", "kc/repo", 60000⟩, ⟨"push", "kc/repo", 120000⟩]
        "push" "kc/repo" 180000 5 3
        = (false, [⟨"push", "kc/repo", 0⟩, ⟨"push", "kc/repo", 60000⟩,
                   ⟨"push", "kc/repo", 120000⟩])
    ∧ checkGitHubRateLimit false
        [⟨"push", "kc/repo", 0⟩, ⟨"push", "kc/repo", 60000⟩, ⟨"push", "kc/repo", 120000⟩]
        "push" "kc/repo" 400000 5 3
        = (true, [⟨"push", "kc/repo", 120000⟩, ⟨"push", "kc/repo", 400000⟩]) := by
  refine ⟨?_, by decide, by decide, by decide, by decide, by decide⟩
  intro entries et id now wm me
  refine ⟨?_, ?_, ?_, ?_, rfl⟩
  · simp only [checkGitHubRateLimit, if_false, Bool.false_eq_true, ite_false]
    simp only [checkGitHubRateLimitCore, purged_pair_filter]
    split
    · rename_i h
      exact iff_of_false (by simp) (by omega)
    · rename_i h
      exact iff_of_true rfl (by omega)
  · intro hlt
    simp only [checkGitHubRateLimit, if_false, Bool.false_eq_true, ite_false]
    simp only [checkGitHubRateLimitCore, purged_eq_window, window_pair_filter]
    rw [if_neg (by omega)]
  · intro hge
    simp only [checkGitHubRateLimit, if_false, Bool.false_eq_true, ite_false]
    simp only [checkGitHubRateLimitCore, purged_eq_window, window_pair_filter]
    rw [if_pos (by omega)]
  · intro e he
    simp only [checkGitHubRateLimit, if_false, Bool.false_eq_true, ite_false] at he
    simp only [checkGitHubRateLimitCore, purged_eq_window, window_pair_filter] at he
    by_cases hc : me ≤ (entries.filter (fun e => e.eventType == et && e.identifier == id
        && decide (now - (wm : Int) * 60 * 1000 ≤ e.createdAt))).length
    · rw [if_pos hc] at he
      have := (List.mem_filter.mp he).2
      simpa using this
    · rw [if_neg hc] at he
      rcases List.mem_append.mp he with he' | he'
      · have := (List.mem_filter.mp he').2
        simpa using this
      · simp at he'
        subst he'
        change now - (wm : Int) * 60 * 1000 ≤ now
        have h0 : (0 : Int) ≤ (wm : Int) * 60 * 1000 := by positivity
        omega

/-- Witness for `rateLimiter_sliding_window`: the implications applied at the
first admitted call and the rejected fourth call of the concrete scenario. -/
theorem rateLimiter_sliding_window_witness :
    (checkGitHubRateLimit false [] "push" "kc/repo" 0 5 3).2
      = ([] : List RateLimitEntry).filter
          (fun e => decide ((0 : Int) - (5 : Nat) * 60 * 1000 ≤ e.createdAt))
          ++ [⟨"push", "kc/repo", 0⟩]
    ∧ (checkGitHubRateLimit false
        [⟨"push", "kc/repo", 0⟩, ⟨"push", "kc/repo", 60000⟩, ⟨"push", "kc/repo", 120000⟩]
        "push" "kc/repo" 180000 5 3).2
      = ([⟨"push", "kc/repo", 0⟩, ⟨"push", "kc/repo", 60000⟩,
          ⟨"push", "kc/repo", 120000⟩] : List RateLimitEntry).filter
          (fun e => decide ((180000 : Int) - (5 : Nat) * 60 * 1000 ≤ e.createdAt)) :=
  ⟨((rateLimiter_sliding_window.1 [] "push" "kc/repo" 0 5 3).2.1 (by decide)),
   ((rateLimiter_sliding_window.1
      [⟨"push", "kc/repo", 0⟩, ⟨"push", "kc/repo", 60000⟩, ⟨"push", "kc/repo", 120000⟩]
      "push" "kc/repo" 180000 5 3).2.2.1 (by decide))⟩

/-! ### Summary truncation (smartAlert `summarizeContent` and
`prepareSmartAlertData` in src/utils/notification-helpers.ts) -/

/-- The character class of `content.replace(/[#*`_~]/g, '')` (the backtick
written by code point). -/
def markdownChars : List Char := ['#', '*', Char.ofNat 96, '_', '~']

/-- `replace(/[#*`_~]/g, '')`: drop every markdown character. -/
def stripMarkdownChars (l : List Char) : List Char :=
  l.filter (fun c => !(markdownChars.contains c))

/-- Worker for `replace(/\n+/g, ' ')`: each maximal run of newlines becomes a
single space; the flag records whether we are inside a run. -/
def collapseNLAux : Bool → List Char → List Char
  | _, [] => []
  | inRun, c :: cs =>
    if c = '\n' then
      (if inRun then collapseNLAux true cs else ' ' :: collapseNLAux true cs)
    else c :: collapseNLAux false cs

/-- `replace(/\n+/g, ' ')`. -/
def collapseNewlineRuns (l : List Char) : List Char :=
  collapseNLAux false l

/-- JavaScript `trim()`: strip whitespace from both ends. -/
def jsTrim (l : List Char) : List Char :=
  ((l.dropWhile Char.isWhitespace).reverse.dropWhile Char.isWhitespace).reverse

/-- JavaScript `lastIndexOf(' ', pos)`: the largest index `≤ pos` holding a
space, or `-1` when there is none. -/
def lastSpaceIndexLE (l : List Char) (pos : Nat) : Int :=
  ((List.range l.length).filter
      (fun i => decide (i ≤ pos) && decide (l.get? i = some ' '))).foldl
    (fun m i => max m (Int.ofNat i)) (-1)

/-- `summarizeContent` of the smartAlert module: default for a missing or
empty body (JS `!content` is true for the empty string); strip markdown
characters, collapse newline runs to single spaces, trim; return the cleaned
text when it fits in 150 characters, otherwise truncate at
`lastIndexOf(' ', 150)` when that index exceeds 100 — and at the raw limit of
150 otherwise — and append an ellipsis. -/
def summarizeContent (content : Option String) : String :=
  match content with
  | none => "No description provided"
  | some s =>
    if s = "" then "No description provided"
    else
      let cleaned := jsTrim (collapseNewlineRuns (stripMarkdownChars s.data))
      if cleaned.length ≤ 150 then String.mk cleaned
      else
        let breakPoint := lastSpaceIndexLE cleaned 150
        String.mk (cleaned.take (if 100 < breakPoint then breakPoint.toNat else 150)) ++ "..."

/-- The summary built by `prepareSmartAlertData` in notification-helpers.ts:
`body.substring(0, 200) + (body.length > 200 ? '...' : '')` — a raw substring,
no markdown stripping, newline collapsing, or space-boundary handling. -/
def smartAlertSummary (body : Option String) : String :=
  match body with
  | none => "No description provided"
  | some s =>
    if s = "" then "No description provided"
    else String.mk (s.data.take 200) ++ (if 200 < s.data.length then "..." else "")

/-- A 300-character body whose only space sits at index 50. -/
def exBodySpace50 : String := String.mk (List.replicate 50 'a' ++ ' ' :: List.replicate 249 'b')

/-- A 300-character body whose only space sits at index 140. -/
def exBodySpace140 : String := String.mk (List.replicate 140 'a' ++ ' ' :: List.replicate 159 'b')

/-- A 300-character body with no space at all. -/
def exBodyNoSpace : String := String.mk (List.replicate 300 'c')

lemma stripMarkdown_eq_self (l : List Char) (h : ∀ c ∈ l, ¬ c ∈ markdownChars) :
    stripMarkdownChars l = l := by
  apply List.filter_eq_self.mpr
  intro c hc
  simpa using h c hc

lemma collapseNLAux_eq_self (l : List Char) (h : ∀ c ∈ l, ¬ c = '\n') :
    ∀ b, collapseNLAux b l = l := by
  induction l with
  | nil => intro b; rfl
  | cons c cs ih =>
    intro b
    have hc := h c (by simp)
    simp only [collapseNLAux, if_neg hc]
    rw [ih (fun d hd => h d (by simp [hd])) false]

lemma dropWhile_eq_self_of_all (l : List Char) (p : Char → Bool)
    (h : ∀ c ∈ l, ¬ p c = true) : l.dropWhile p = l := by
  cases l with
  | nil => rfl
  | cons c cs =>
    rw [List.dropWhile_cons]
    rw [if_neg (h c (by simp))]

lemma jsTrim_eq_self (l : List Char) (h : ∀ c ∈ l, ¬ Char.isWhitespace c = true) :
    jsTrim l = l := by
  unfold jsTrim
  rw [dropWhile_eq_self_of_all l _ h,
    dropWhile_eq_self_of_all l.reverse _ (fun c hc => h c (List.mem_reverse.mp hc)),
    List.reverse_reverse]

lemma lastSpaceIndexLE_eq_neg_one (l : List Char) (pos : Nat)
    (h : ∀ c ∈ l, ¬ c = ' ') : lastSpaceIndexLE l pos = -1 := by
  unfold lastSpaceIndexLE
  have hnil : (List.range l.length).filter
      (fun i => decide (i ≤ pos) && decide (l.get? i = some ' ')) = [] := by
    apply List.filter_eq_nil_iff.mpr
    intro i _
    by_cases hi : l.get? i = some ' '
    · exact absurd rfl (h ' ' (List.get?_mem hi))
    · rw [List.get?_eq_getElem?] at hi
      simp [hi]
  rw [hnil]
  rfl

lemma summarize_spaceless (s : String) (hlen : 150 < s.data.length)
    (hclean : ∀ c ∈ s.data, ¬ c ∈ markdownChars ∧ ¬ Char.isWhitespace c = true) :
    summarizeContent (some s) = String.mk (s.data.take 150) ++ "..." := by
  have hne : ¬ s = "" := by
    intro he
    rw [he] at hlen
    simp at hlen
  have hnosp : ∀ c ∈ s.data, ¬ c = ' ' := by
    intro c hc he
    have := (hclean c hc).2
    rw [he] at this
    simp [Char.isWhitespace] at this
  have hnonl : ∀ c ∈ s.data, ¬ c = '\n' := by
    intro c hc he
    have := (hclean c hc).2
    rw [he] at this
    simp [Char.isWhitespace] at this
  simp only [summarizeContent, if_neg hne]
  rw [stripMarkdown_eq_self s.data (fun c hc => (hclean c hc).1)]
  unfold collapseNewlineRuns
  rw [collapseNLAux_eq_self s.data hnonl false]
  rw [jsTrim_eq_self s.data (fun c hc => (hclean c hc).2)]
  rw [if_neg (by omega)]
  rw [lastSpaceIndexLE_eq_neg_one s.data 150 hnosp]
  norm_num

lemma smartAlertSummary_long (s : String) (hne : s ≠ "") (hlen : 200 < s.data.length) :
    smartAlertSummary (some s) = String.mk (s.data.take 200) ++ "..." := by
  simp only [smartAlertSummary, if_neg hne, if_pos hlen]

set_option maxRecDepth 10000

/-! ### Theorems: summary truncation (C8) -/

/-- Claim C8 (counterexample): on a 300-character body whose last (and only)
space sits at position 50, the smartAlert summarizer truncates at the raw
limit of 150 — not at the space — because the space-boundary branch is taken
only when the break point exceeds 100; and the generic smart-alert summary
truncates the raw body at 200 with no space-boundary handling at all, rather
than at the space as the claim demands. -/
theorem summarize_ignores_early_space_boundary :
    summarizeContent (some exBodySpace50)
        = String.mk (List.replicate 50 'a' ++ ' ' :: List.replicate 99 'b') ++ "..."
    ∧ summarizeContent (some exBodySpace50) ≠ String.mk (List.replicate 50 'a') ++ "..."
    ∧ smartAlertSummary (some exBodySpace50)
        = String.mk (List.replicate 50 'a' ++ ' ' :: List.replicate 149 'b') ++ "..." := by
  refine ⟨by decide, by decide, by decide⟩

/-- Claim C8 (amended): the 150-limit summarizer strips markdown characters,
collapses newline runs and trims, and when the cleaned text exceeds 150
characters truncates at the last space at or before index 150 *only when that
index exceeds 100* (e.g. a space at position 140), and otherwise at the raw
limit of 150, appending an ellipsis — in particular a spaceless body
truncates at exactly 150; the 200-limit generic smart-alert summary is a raw
`substring(0, 200)` plus ellipsis with no stripping, collapsing, or
space-boundary handling. -/
theorem summary_truncation_behavior :
    (∀ s : String, 150 < s.data.length →
      (∀ c ∈ s.data, ¬ c ∈ markdownChars ∧ ¬ Char.isWhitespace c = true) →
      summarizeContent (some s) = String.mk (s.data.take 150) ++ "...")
    ∧ (∀ s : String, s ≠ "" → 200 < s.data.length →
        smartAlertSummary (some s) = String.mk (s.data.take 200) ++ "...")
    ∧ summarizeContent (some exBodySpace140) = String.mk (List.replicate 140 'a') ++ "..."
    ∧ smartAlertSummary (some exBodySpace140)
        = String.mk (List.replicate 140 'a' ++ ' ' :: List.replicate 59 'b') ++ "..." := by
  exact ⟨summarize_spaceless, smartAlertSummary_long, by decide, by decide⟩

/-- Witness for `summary_truncation_behavior` at concrete 300-character
bodies. -/
theorem summary_truncation_behavior_witness :
    summarizeContent (some exBodyNoSpace) = String.mk (exBodyNoSpace.data.take 150) ++ "..."
    ∧ smartAlertSummary (some exBodySpace140)
        = String.mk (exBodySpace140.data.take 200) ++ "..." :=
  ⟨summary_truncation_behavior.1 exBodyNoSpace (by decide) (by decide),
   summary_truncation_behavior.2.1 exBodySpace140 (by decide) (by decide)⟩

/-! ### Webhook handler (src/handlers/githubHandler.ts) -/

/-- The part of the parsed JSON payload the handler itself touches:
`payload.repository.full_name` (a `none` repository models a payload without
the required `repository` object, whose field access throws a TypeError) and
the optional `action` used for the event type. -/
structure InboundPayload where
  repositoryFullName : Option String
  action : Option String
  deriving DecidableEq

/-- An inbound GitHub webhook request:  whether a webhook secret is
configured, whether the signature verifies, the `x-github-event` header, and
the result of `JSON.parse` (`none`: the payload is unparseable). -/
structure InboundRequest where
  secretConfigured : Bool
  signatureValid : Bool
  eventHeader : Option String
  parsedPayload : Option InboundPayload
  deriving DecidableEq

/-- The HTTP response produced by the handler. -/
structure WebhookResponse where
  status : Nat
  success : Bool
  deriving DecidableEq

/-- 4xx statuses are client errors. -/
def isClientError (status : Nat) : Bool := 400 ≤ status && status < 500

/-- `getGitHubEventType`: the `x-github-event` header (or "unknown"), with
`.action` appended when present. -/
def getGitHubEventType (eventHeader : Option String) (p : InboundPayload) : String :=
  let base := eventHeader.getD "unknown"
  match p.action with
  | some a => base ++ "." ++ a
  | none => base

/-- `handleGitHubWebhook`: verify the signature when a secret is configured
(401 on failure); 400 when `JSON.parse` throws; a payload without the
`repository` object makes `shouldProcessWebhook` /
`payload.repository.full_name` throw, which the outer catch converts to a 500
response; otherwise rate-limit on (eventType, repository full name) with a
5-minute window and 20 events (429 when rejected) and acknowledge with a
success response.  `processAllNotifications` catches every error internally
(each sub-promise carries `.catch` and the body is wrapped in try/catch), so
the delivery outcome `deliveryOk` never influences the response. -/
def handleGitHubWebhook (req : InboundRequest) (entries : List RateLimitEntry) (now : Int)
    (storageFails : Bool) (deliveryOk : Bool) : WebhookResponse × List RateLimitEntry :=
  if req.secretConfigured && !req.signatureValid then
    ({ status := 401, success := false }, entries)
  else
    match req.parsedPayload with
    | none => ({ status := 400, success := false }, entries)
    | some p =>
      match p.repositoryFullName with
      | none => ({ status := 500, success := false }, entries)
      | some repoFull =>
        let check := checkGitHubRateLimit storageFails entries
          (getGitHubEventType req.eventHeader p) repoFull now 5 20
        if check.1 then ({ status := 200, success := true }, check.2)
        else ({ status := 429, success := false }, check.2)

/-! ### Theorems: webhook handler responses (C9) -/

/-- Claim C9 (counterexample): a payload that parses as JSON but lacks the
required `repository` field is answered with a 500 internal-server-error
response — not a client error — because the field access throws inside the
handler and the catch-all replies 500 (nothing is persisted). -/
theorem webhook_missing_repository_returns_500 :
    (handleGitHubWebhook ⟨false, false, some "push", some ⟨none, none⟩⟩ [] 0 false true).1
        = ⟨500, false⟩
    ∧ isClientError 500 = false
    ∧ (handleGitHubWebhook ⟨false, false, some "push", some ⟨none, none⟩⟩ [] 0 false true).2
        = [] := by
  refine ⟨by decide, by decide, by decide⟩

/-- Claim C9 (amended): the response never depends on the notification
delivery outcome; a parsed payload carrying its repository that passes rate
limiting is acknowledged with success (200); an unparseable payload is
rejected with a 400 client error and nothing persisted; a payload missing the
required repository field yields a 500 server error — not a client error —
and nothing persisted. -/
theorem webhook_ack_independent_of_delivery :
    (∀ (req : InboundRequest) (entries : List RateLimitEntry) (now : Int) (sf d₁ d₂ : Bool),
      handleGitHubWebhook req entries now sf d₁ = handleGitHubWebhook req entries now sf d₂)
    ∧ (∀ (req : InboundRequest) (entries : List RateLimitEntry) (now : Int) (sf d : Bool)
        (p : InboundPayload) (repo : String),
        ¬(req.secretConfigured && !req.signatureValid) = true →
        req.parsedPayload = some p →
        p.repositoryFullName = some repo →
        (checkGitHubRateLimit sf entries (getGitHubEventType req.eventHeader p)
          repo now 5 20).1 = true →
        (handleGitHubWebhook req entries now sf d).1 = ⟨200, true⟩)
    ∧ (∀ (req : InboundRequest) (entries : List RateLimitEntry) (now : Int) (sf d : Bool),
        ¬(req.secretConfigured && !req.signatureValid) = true →
        req.parsedPayload = none →
        handleGitHubWebhook req entries now sf d = (⟨400, false⟩, entries)
        ∧ isClientError 400 = true)
    ∧ (∀ (req : InboundRequest) (entries : List RateLimitEntry) (now : Int) (sf d : Bool)
        (p : InboundPayload),
        ¬(req.secretConfigured && !req.signatureValid) = true →
        req.parsedPayload = some p →
        p.repositoryFullName = none →
        handleGitHubWebhook req entries now sf d = (⟨500, false⟩, entries)
        ∧ isClientError 500 = false) := by
  refine ⟨fun req entries now sf d₁ d₂ => rfl, ?_, ?_, ?_⟩
  · intro req entries now sf d p repo hsig hp hrepo hlim
    simp only [handleGitHubWebhook, if_neg hsig, hp, hrepo, hlim, if_pos]
  · intro req entries now sf d hsig hp
    refine ⟨?_, by decide⟩
    simp only [handleGitHubWebhook, if_neg hsig, hp]
  · intro req entries now sf d p hsig hp hrepo
    refine ⟨?_, by decide⟩
    simp only [handleGitHubWebhook, if_neg hsig, hp, hrepo]

/-- Witness for `webhook_ack_independent_of_delivery` at concrete requests. -/
theorem webhook_ack_independent_of_delivery_witness :
    (handleGitHubWebhook ⟨false, false, some "push", some ⟨some "kc/repo", none⟩⟩
        [] 0 false true).1 = ⟨200, true⟩
    ∧ (handleGitHubWebhook ⟨false, false, some "push", none⟩ [] 0 false true
        = (⟨400, false⟩, []) ∧ isClientError 400 = true)
    ∧ (handleGitHubWebhook ⟨false, false, some "push", some ⟨none, none⟩⟩ [] 0 false true
        = (⟨500, false⟩, []) ∧ isClientError 500 = false) :=
  ⟨webhook_ack_independent_of_delivery.2.1
      ⟨false, false, some "push", some ⟨some "kc/repo", none⟩⟩ [] 0 false true
      ⟨some "kc/repo", none⟩ "kc/repo" (by decide) rfl rfl (by decide),
   webhook_ack_independent_of_delivery.2.2.1
      ⟨false, false, some "push", none⟩ [] 0 false true (by decide) rfl,
   webhook_ack_independent_of_delivery.2.2.2
      ⟨false, false, some "push", some ⟨none, none⟩⟩ [] 0 false true
      ⟨none, none⟩ (by decide) rfl rfl⟩

/-! ### Push smart alerts (smartAlert `prepareSmartAlertData`, push branch) -/

/-- A commit of a push payload. -/
structure PushCommit where
  message : String
  url : String
  deriving DecidableEq

/-- The fields of a `push` webhook payload used by `prepareSmartAlertData`. -/
structure PushPayload where
  ref : String
  commits : List PushCommit
  headCommit : Option PushCommit
  forced : Bool
  senderLogin : String
  repositoryFullName : String
  deriving DecidableEq

/-- The `SmartAlertData` record assembled by `prepareSmartAlertData`. -/
structure SmartAlertData where
  id : Nat
  number : Nat
  title : String
  author : String
  url : String
  summary : String
  status : String
  labels : List String
  type : String
  repository : String
  branch : String
  deriving DecidableEq

/-- Drop the first occurrence of `pat` from the character list (JavaScript
`replace(pat, '')` with a string pattern replaces only the first match). -/
def removeFirstList (pat : List Char) : List Char → List Char
  | [] => []
  | c :: cs =>
    if pat.isPrefixOf (c :: cs) then (c :: cs).drop pat.length
    else c :: removeFirstList pat cs

/-- `payload.ref.replace('refs/heads/', '')`. -/
def jsReplaceFirst (s pat : String) : String :=
  String.mk (removeFirstList pat.data s.data)

/-- `message.split('\n')[0]`: the text before the first newline. -/
def firstLine (s : String) : String :=
  String.mk (s.data.takeWhile (fun c => ¬ c = '\n'))

/-- `headCommit.message.startsWith('Merge pull request')`. -/
def startsWithMergePR (s : String) : Bool :=
  ("Merge pull request".data).isPrefixOf s.data

/-- The push branch of `prepareSmartAlertData` (smartAlert module): `none` on
a deleted branch (no head commit) or a merge commit; otherwise the alert data
with `id := Date.now()` — the current clock time, no payload field — and
`number := 0`. -/
def prepareSmartAlertPush (p : PushPayload) (nowMs : Nat) : Option SmartAlertData :=
  match p.headCommit with
  | none => none
  | some hc =>
    if startsWithMergePR hc.message then none
    else some
      { id := nowMs
        number := 0
        title := firstLine hc.message
        author := p.senderLogin
        url := hc.url
        summary := if 1 < p.commits.length
                   then toString p.commits.length ++ " commits pushed"
                   else hc.message
        status := if p.forced then "Force Pushed" else "Pushed"
        labels := []
        type := "Push"
        repository := p.repositoryFullName
        branch := jsReplaceFirst p.ref "refs/heads/" }

/-- The `github_id` value bound by `sendGitHubNotification`:
`data.id || data.number`, where a zero id is falsy and falls back to the
number. -/
def entityKey (id number : Nat) : Nat :=
  if id = 0 then number else id

/-- A concrete push payload. -/
def exPushPayload : PushPayload :=
  { ref := "refs/heads/main"
    commits := [⟨"Fix bug", "https://github.com/kc/repo/commit/1"⟩]
    headCommit := some ⟨"Fix bug", "https://github.com/kc/repo/commit/1"⟩
    forced := false
    senderLogin := "alice"
    repositoryFullName := "kc/repo" }

/-- `prepareSmartAlertData` on `exPushPayload` at clock time 1000. -/
def exPushAlert1000 : SmartAlertData :=
  { id := 1000, number := 0, title := "Fix bug", author := "alice"
    url := "https://github.com/kc/repo/commit/1", summary := "Fix bug"
    status := "Pushed", labels := [], type := "Push", repository := "kc/repo"
    branch := "main" }

/-- `prepareSmartAlertData` on `exPushPayload` at clock time 2000. -/
def exPushAlert2000 : SmartAlertData :=
  { exPushAlert1000 with id := 2000 }

/-! ### Theorems: push alerts are exempt from dedup (C10) -/

/-- Claim C10: for every push payload that yields an alert, the entity id is
the clock time `Date.now()` (and the number is 0), so two processings of the
same payload at different (positive) times produce different dedup entity
keys; a ledger row recorded under the first key never matches a lookup under
the second key, so the gate's check permits the second send — push
smart-alerts are effectively exempt from content dedup. -/
theorem push_alert_entity_id_is_clock_time :
    (∀ (p : PushPayload) (nowMs : Nat) (d : SmartAlertData),
      prepareSmartAlertPush p nowMs = some d → d.id = nowMs ∧ d.number = 0)
    ∧ (∀ (p₁ p₂ : PushPayload) (now₁ now₂ : Nat) (d₁ d₂ : SmartAlertData),
        prepareSmartAlertPush p₁ now₁ = some d₁ → prepareSmartAlertPush p₂ now₂ = some d₂ →
        0 < now₁ → 0 < now₂ → now₁ ≠ now₂ →
        entityKey d₁.id d₁.number ≠ entityKey d₂.id d₂.number)
    ∧ (∀ (d₁ d₂ : SmartAlertData) (et tpl chat t h₁ h₂ : String),
        toString (entityKey d₁.id d₁.number) ≠ toString (entityKey d₂.id d₂.number) →
        shouldSendCheck [⟨et, toString (entityKey d₁.id d₁.number), tpl, chat, t, h₁⟩]
          et (toString (entityKey d₂.id d₂.number)) tpl h₂ = true) := by
  have hfields : ∀ (p : PushPayload) (nowMs : Nat) (d : SmartAlertData),
      prepareSmartAlertPush p nowMs = some d → d.id = nowMs ∧ d.number = 0 := by
    intro p nowMs d h
    unfold prepareSmartAlertPush at h
    split at h
    · cases h
    · split at h
      · cases h
      · cases h
        exact ⟨rfl, rfl⟩
  refine ⟨hfields, ?_, ?_⟩
  · intro p₁ p₂ now₁ now₂ d₁ d₂ h₁ h₂ hpos₁ hpos₂ hne
    obtain ⟨hid₁, hn₁⟩ := hfields p₁ now₁ d₁ h₁
    obtain ⟨hid₂, hn₂⟩ := hfields p₂ now₂ d₂ h₂
    simp only [entityKey, hid₁, hid₂, hn₁, hn₂]
    rw [if_neg (by omega), if_neg (by omega)]
    exact hne
  · intro d₁ d₂ et tpl chat t h₁ h₂ hne
    simp only [shouldSendCheck, List.any_cons, List.any_nil, Bool.or_false,
      Bool.not_eq_true']
    simp only [matchesKey, Bool.and_eq_false_iff]
    left
    left
    right
    simp [hne]

/-- Witness for `push_alert_entity_id_is_clock_time`: the same push payload
processed at clock times 1000 and 2000 yields different entity keys, and the
second lookup misses the first record. -/
theorem push_alert_entity_id_is_clock_time_witness :
    entityKey exPushAlert1000.id exPushAlert1000.number
        ≠ entityKey exPushAlert2000.id exPushAlert2000.number
    ∧ shouldSendCheck
        [⟨"push", toString (entityKey exPushAlert1000.id exPushAlert1000.number),
          "smart_alert", "chat", "t", "h1"⟩]
        "push" (toString (entityKey exPushAlert2000.id exPushAlert2000.number))
        "smart_alert" "h2" = true :=
  ⟨push_alert_entity_id_is_clock_time.2.1 exPushPayload exPushPayload 1000 2000
      exPushAlert1000 exPushAlert2000 (by decide) (by decide) (by decide) (by decide)
      (by decide),
   push_alert_entity_id_is_clock_time.2.2 exPushAlert1000 exPushAlert2000
      "push" "smart_alert" "chat" "t" "h1" "h2" (by decide)⟩

end KhmercodersBot
